import Mathlib

/-!
Verification development for the plind-engine repository.

Part 1 embeds `seq-id-store/src/lib.rs` (`SequentialIDStore`).
Part 2 embeds the parts of `vulkan-rhi-backend/src/lib.rs` that the
specification's claims are about: the command compiler / synchronization
engine (`compile_commands`), `update_input_set`, `wait_for_fence`,
`create_frame_buffer` and the `Drop` implementation.

Machine integers: the Rust `u32`/`u64` counters are modelled as `Nat`
with the explicit bounds `u32Max`/`u64Max` checked exactly where the
source checks them (the only arithmetic is `max_id += 1` under a
`max_id == u32::MAX` guard, so no wrap-around can occur).

Rust `HashMap<u32, T>` is modelled as an association list with
insert-overwrites semantics (`mapInsert`, `mapRemove`, `mapFind?`).
Iteration order of a Rust `HashMap` is unspecified; the model iterates
in insertion order.  No claim below depends on the iteration order
across distinct keys.
-/

/-- Bound of the Rust `u32` type: `u32::MAX`. -/
def u32Max : Nat := 4294967295

/-- Bound of the Rust `u64` type: `u64::MAX`. -/
def u64Max : Nat := 18446744073709551615

/-- Model of `HashMap::insert`: replace the binding of `k` if present,
otherwise append a new binding. -/
def mapInsert {T : Type} (k : Nat) (v : T) : List (Nat × T) → List (Nat × T)
  | [] => [(k, v)]
  | p :: rest => if p.1 = k then (k, v) :: rest else p :: mapInsert k v rest

/-- Model of `HashMap::remove`'s effect on the table: drop the binding of `k`. -/
def mapRemove {T : Type} (k : Nat) : List (Nat × T) → List (Nat × T)
  | [] => []
  | p :: rest => if p.1 = k then mapRemove k rest else p :: mapRemove k rest

/-- Model of `HashMap::get`. -/
def mapFind? {T : Type} (k : Nat) : List (Nat × T) → Option T
  | [] => none
  | p :: rest => if p.1 = k then some p.2 else mapFind? k rest

/-- The keys of the modelled map. -/
def keys {T : Type} (m : List (Nat × T)) : List Nat := m.map Prod.fst

/-- Embedding of `SequentialIDStore<T>` (seq-id-store/src/lib.rs, lines 3-7).
`store` models the `HashMap<u32, T>`; `freed` models the `Vec<u32>` of freed
ids as a stack with its top at the head (the Rust `Vec` keeps the same stack
with its top at the tail: `Vec::push` / `Vec::pop` act on the tail, while the
model's cons / head act on the head). -/
structure SequentialIDStore (T : Type) where
  max_id : Nat
  store : List (Nat × T)
  freed : List Nat
deriving DecidableEq

/-- Embedding of `SequentialIDStore::new` (lines 10-16).  The capacity only
pre-sizes the Rust collections and has no semantic effect. -/
def SequentialIDStore.new (T : Type) (_capacity : Nat) : SequentialIDStore T :=
  { max_id := 0, store := [], freed := [] }

/-- Embedding of `SequentialIDStore::add_obj` (lines 18-34): pop a freed id
if one exists, otherwise mint `max_id` after checking the `u32::MAX` guard.
The Rust error is the static string "max items reached". -/
def SequentialIDStore.add_obj {T : Type} (s : SequentialIDStore T) (obj : T) :
    Except String (Nat × SequentialIDStore T) :=
  match s.freed with
  | id :: rest =>
      .ok (id, { s with store := mapInsert id obj s.store, freed := rest })
  | [] =>
      if s.max_id = u32Max then
        .error "max items reached"
      else
        .ok (s.max_id,
          { s with max_id := s.max_id + 1, store := mapInsert s.max_id obj s.store })

/-- Embedding of `SequentialIDStore::remove_obj` (lines 36-40): move the
object out and push the id on the freed stack; the Rust error is the static
string "item not found". -/
def SequentialIDStore.remove_obj {T : Type} (s : SequentialIDStore T) (id : Nat) :
    Except String (T × SequentialIDStore T) :=
  match mapFind? id s.store with
  | none => .error "item not found"
  | some obj => .ok (obj, { s with store := mapRemove id s.store, freed := id :: s.freed })

/-- Embedding of `SequentialIDStore::get_obj` (lines 42-44). -/
def SequentialIDStore.get_obj {T : Type} (s : SequentialIDStore T) (id : Nat) :
    Except String T :=
  match mapFind? id s.store with
  | none => .error "item not found"
  | some obj => .ok obj

/-- One call against a `SequentialIDStore`: either `add_obj` with some object
or `remove_obj` of some id. -/
inductive StoreOp (T : Type) where
  | add (obj : T)
  | remove (id : Nat)

/-- Execute one call; a call that returns `Err` leaves the store unchanged
(in the source the error paths perform no mutation before returning). -/
def SequentialIDStore.applyOp {T : Type} (s : SequentialIDStore T) :
    StoreOp T → SequentialIDStore T
  | .add obj =>
      match s.add_obj obj with
      | .ok (_, s') => s'
      | .error _ => s
  | .remove id =>
      match s.remove_obj id with
      | .ok (_, s') => s'
      | .error _ => s

/-- Execute a sequence of calls starting from a fresh store. -/
def execOps {T : Type} (ops : List (StoreOp T)) : SequentialIDStore T :=
  ops.foldl SequentialIDStore.applyOp (SequentialIDStore.new T 0)

/-- The structural invariant of a `SequentialIDStore`: every live key and
every freed id is below the high-water mark, the freed stack has no
duplicates and is disjoint from the live keys, and the live keys are
pairwise distinct. -/
structure StoreInv {T : Type} (s : SequentialIDStore T) : Prop where
  keys_lt : ∀ id ∈ keys s.store, id < s.max_id
  freed_lt : ∀ id ∈ s.freed, id < s.max_id
  freed_nodup : s.freed.Nodup
  freed_disjoint : ∀ id ∈ s.freed, id ∉ keys s.store
  keys_nodup : (keys s.store).Nodup

/-!
Part 2: the Vulkan backend.  Handles (`rhi::ImageID(u32)` and friends) are
`u32` newtypes used as plain keys; they are modelled as `Nat`.  Native
Vulkan objects (`vk::Image`, `vk::Buffer`, `vk::CommandBuffer`, `vk::Fence`)
carry no information the claims depend on and are modelled as `Unit`; the
native `vk::Framebuffer` is modelled as the creation parameters that the
source computes for it (its resolution).  Native driver calls that can only
fail inside the driver (`begin_command_buffer`, `end_command_buffer`,
`create_framebuffer`, `update_descriptor_sets`) are modelled as succeeding;
every failure path the claims talk about is a handle-resolution failure,
which the model reproduces exactly.
-/

/-- Handle newtype `rhi::ImageID(pub u32)`, modelled as `Nat`. -/
abbrev ImageID := Nat

/-- Handle newtype `rhi::BufferID(pub u32)`, modelled as `Nat`. -/
abbrev BufferID := Nat

/-- Handle newtype `rhi::PipelineID(pub u32)`, modelled as `Nat`. -/
abbrev PipelineID := Nat

/-- Handle newtype `rhi::FramebufferID(pub u32)`, modelled as `Nat`. -/
abbrev FramebufferID := Nat

/-- Handle newtype `rhi::InputSetID(pub u32)`, modelled as `Nat`. -/
abbrev InputSetID := Nat

/-- Handle newtype `rhi::FenceID(pub u32)`, modelled as `Nat`. -/
abbrev FenceID := Nat

/-- Handle newtype `rhi::CommandBufferID(pub u32)`, modelled as `Nat`. -/
abbrev CommandBufferID := Nat

/-- `rhi::Resolution2D` (rhi/src/lib.rs, lines 11-14). -/
structure Resolution2D where
  width : Nat
  height : Nat
deriving DecidableEq

/-- `rhi::ImageFormat` (rhi/src/lib.rs, lines 35-41). -/
inductive ImageFormat where
  | Texture
  | Float
  | Depth
  | RenderIntermediate
  | Presentation
deriving DecidableEq

/-- Modelled from the spec: the rhi revision vendored under src/ predates
`DrawInfo`; its draw ranges are bound but never inspected by the backend
(`RunGraphicsPipeline { .. }` in the recording pass), so it is modelled as
an unnamed token. -/
inductive DrawInfo where
  | mk
deriving DecidableEq

/-- Modelled from the spec: the rhi revision vendored under src/ predates
`GPUCommands`.  Variants and fields follow spec section 4.3 ("each one of
copy-buffer-to-buffer, copy-buffer-to-image, blit-image,
run-graphics-pipeline(pipeline, framebuffer, input_set, draw_ranges)") and
the pattern matches of `compile_commands` in vulkan-rhi-backend/src/lib.rs. -/
inductive GPUCommands where
  | CopyBufferToBuffer (src dst : BufferID)
  | CopyBufferToImage (src : BufferID) (dst : ImageID)
  | BlitImage (src dst : ImageID)
  | RunGraphicsPipeline (pipeline : PipelineID) (framebuffer : FramebufferID)
      (input_set : InputSetID) (draw_infos : List DrawInfo)
deriving DecidableEq

/-- The `vk::ImageLayout` values the backend uses. -/
inductive VkImageLayout where
  | UNDEFINED
  | COLOR_ATTACHMENT_OPTIMAL
  | DEPTH_ATTACHMENT_OPTIMAL
  | DEPTH_STENCIL_ATTACHMENT_OPTIMAL
  | SHADER_READ_ONLY_OPTIMAL
  | TRANSFER_SRC_OPTIMAL
  | TRANSFER_DST_OPTIMAL
deriving DecidableEq

/-- The `vk::PipelineStageFlags` values the backend uses. -/
inductive VkPipelineStage where
  | TRANSFER
  | COLOR_ATTACHMENT_OUTPUT
  | EARLY_FRAGMENT_TESTS
  | FRAGMENT_SHADER
  | BOTTOM_OF_PIPE
deriving DecidableEq

/-- The `vk::AccessFlags` values the backend uses. -/
inductive VkAccess where
  | NONE
  | COLOR_ATTACHMENT_WRITE
  | DEPTH_STENCIL_ATTACHMENT_WRITE
  | SHADER_READ
  | TRANSFER_READ
  | TRANSFER_WRITE
deriving DecidableEq

/-- The `vk::ImageAspectFlags` values the backend uses. -/
inductive VkImageAspect where
  | COLOR
  | DEPTH
deriving DecidableEq

/-- Embedding of `infer_access_from_layout` (vulkan-rhi-backend/src/lib.rs,
lines 129-145): an if-else chain on the layout; every layout not named in
the chain (including `DEPTH_STENCIL_ATTACHMENT_OPTIMAL`) falls through to
`AccessFlags::NONE`. -/
def infer_access_from_layout : VkImageLayout → VkAccess
  | .COLOR_ATTACHMENT_OPTIMAL => .COLOR_ATTACHMENT_WRITE
  | .DEPTH_ATTACHMENT_OPTIMAL => .DEPTH_STENCIL_ATTACHMENT_WRITE
  | .SHADER_READ_ONLY_OPTIMAL => .SHADER_READ
  | .TRANSFER_SRC_OPTIMAL => .TRANSFER_READ
  | .TRANSFER_DST_OPTIMAL => .TRANSFER_WRITE
  | .UNDEFINED => .NONE
  | .DEPTH_STENCIL_ATTACHMENT_OPTIMAL => .NONE

/-- Embedding of `get_aspect_mask` (lines 119-127). -/
def get_aspect_mask : ImageFormat → VkImageAspect
  | .Texture => .COLOR
  | .Float => .COLOR
  | .Depth => .DEPTH
  | .RenderIntermediate => .COLOR
  | .Presentation => .COLOR

/-- Embedding of `AllocatedTexture` (lines 153-159); the native image, view
and backing allocation are dropped, the creation-time metadata is kept. -/
structure AllocatedTexture where
  resolution : Resolution2D
  format : ImageFormat
deriving DecidableEq

/-- Embedding of `AllocatedBuffer` (lines 147-151). -/
structure AllocatedBuffer where
  size : Nat
deriving DecidableEq

/-- Embedding of `GraphicsPipeline` (lines 161-167); all of its fields are
native handles, none of which the claims depend on. -/
structure GraphicsPipeline where
  mk ::
deriving DecidableEq

/-- Embedding of `InputSetVK` (lines 169-174): the native descriptor-set
pair is dropped, the lists of bound handles are kept. -/
structure InputSetVK where
  bound_buffers : List BufferID
  bound_textures : List ImageID
deriving DecidableEq

/-- The native `vk::Framebuffer`, modelled as the creation parameters the
source passes to `create_framebuffer` (its width and height). -/
structure VkFramebuffer where
  width : Nat
  height : Nat
deriving DecidableEq

/-- Embedding of `FramebufferVK` (lines 176-180). -/
structure FramebufferVK where
  framebuffer : VkFramebuffer
  color_attachments : List ImageID
  depth_attachment : Option ImageID
deriving DecidableEq

/-- Embedding of the resource tables of `VulkanBackend` (lines 182-206);
the native instance / device / queue / pool / swapchain fields are not part
of any claim and are dropped. -/
structure VulkanBackend where
  command_buffers : SequentialIDStore Unit
  fences : SequentialIDStore Unit
  descriptor_sets : SequentialIDStore InputSetVK
  frame_buffers : SequentialIDStore FramebufferVK
  pipelines : SequentialIDStore GraphicsPipeline
  images : SequentialIDStore AllocatedTexture
  buffers : SequentialIDStore AllocatedBuffer
deriving DecidableEq

/-- A required (layout, pipeline stage) pair, as stored in the values of
`image_needed_state`. -/
abbrev StatePair := VkImageLayout × VkPipelineStage

/-- The `image_needed_state` map:
`HashMap<ImageID, HashMap<usize, (ImageLayout, PipelineStageFlags)>>`,
modelled as a nested association list in insertion order. -/
abbrev NeededMap := List (Nat × List (Nat × StatePair))

/-- One `image_needed_state.entry(img).or_insert(HashMap::new()).insert(i, v)`
step of the derivation pass (compile_commands, lines 845-890). -/
def insertNeeded (m : NeededMap) (img i : Nat) (v : StatePair) : NeededMap :=
  mapInsert img (mapInsert i v ((mapFind? img m).getD [])) m

/-- The color-attachment loop of the `RunGraphicsPipeline` arm of the
derivation pass (lines 863-871). -/
def addColorAttachments (i : Nat) (atts : List Nat) (m : NeededMap) : NeededMap :=
  atts.foldl
    (fun acc att =>
      insertNeeded acc att i (.COLOR_ATTACHMENT_OPTIMAL, .COLOR_ATTACHMENT_OUTPUT)) m

/-- The depth-attachment step of the `RunGraphicsPipeline` arm (lines 872-880). -/
def addDepthAttachment (i : Nat) (depth : Option Nat) (m : NeededMap) : NeededMap :=
  match depth with
  | some att => insertNeeded m att i (.DEPTH_STENCIL_ATTACHMENT_OPTIMAL, .EARLY_FRAGMENT_TESTS)
  | none => m

/-- The bound-texture loop of the `RunGraphicsPipeline` arm (lines 881-890). -/
def addBoundTextures (i : Nat) (texs : List Nat) (m : NeededMap) : NeededMap :=
  texs.foldl
    (fun acc tex =>
      insertNeeded acc tex i (.SHADER_READ_ONLY_OPTIMAL, .FRAGMENT_SHADER)) m

/-- Embedding of the required-state derivation pass of `compile_commands`
(lines 841-893): walk the enumerated command list, recording per image and
per index the required (layout, stage) pair.  The only fallible steps are
the framebuffer and input-set lookups of `RunGraphicsPipeline`. -/
def deriveNeeded (b : VulkanBackend) : List (Nat × GPUCommands) → NeededMap →
    Except String NeededMap
  | [], m => .ok m
  | (i, cmd) :: rest, m =>
    match cmd with
    | .CopyBufferToBuffer _ _ => deriveNeeded b rest m
    | .CopyBufferToImage _src dst =>
        deriveNeeded b rest (insertNeeded m dst i (.TRANSFER_DST_OPTIMAL, .TRANSFER))
    | .BlitImage src dst =>
        deriveNeeded b rest
          (insertNeeded (insertNeeded m src i (.TRANSFER_SRC_OPTIMAL, .TRANSFER))
            dst i (.TRANSFER_DST_OPTIMAL, .TRANSFER))
    | .RunGraphicsPipeline _p fb inset _d =>
        match b.frame_buffers.get_obj fb with
        | .error e => .error e
        | .ok fbVk =>
          let m1 := addColorAttachments i fbVk.color_attachments m
          let m2 := addDepthAttachment i fbVk.depth_attachment m1
          match b.descriptor_sets.get_obj inset with
          | .error e => .error e
          | .ok isVk =>
            deriveNeeded b rest (addBoundTextures i isVk.bound_textures m2)

/-- One native instruction recorded into the command buffer. -/
inductive RecInstr where
  | beginCB
  | cmdCopyBuffer (src dst : BufferID) (size : Nat)
  | cmdPipelineBarrier (image : ImageID) (srcStage dstStage : VkPipelineStage)
      (oldLayout newLayout : VkImageLayout) (srcAccess dstAccess : VkAccess)
      (aspect : VkImageAspect)
  | endCB
deriving DecidableEq

/-- The native recording call of the recording pass for one command
(lines 901-916): only `CopyBufferToBuffer` records anything (a
`cmd_copy_buffer` of the source buffer's full size); the other three arms
are empty. -/
def recordNative (b : VulkanBackend) (cmd : GPUCommands) :
    Except String (List RecInstr) :=
  match cmd with
  | .CopyBufferToBuffer src dst =>
      match b.buffers.get_obj src with
      | .error e => .error e
      | .ok srcB =>
        match b.buffers.get_obj dst with
        | .error e => .error e
        | .ok _dstB => .ok [.cmdCopyBuffer src dst srcB.size]
  | .CopyBufferToImage _ _ => .ok []
  | .BlitImage _ _ => .ok []
  | .RunGraphicsPipeline _ _ _ _ => .ok []

/-- The per-image body of the barrier loop at index `i` (lines 917-954):
the image is looked up first (so a stale image id in the map fails even at
an index where that image has no entry); if the image has an entry at `i`,
a barrier is emitted whose previous state is the entry at index `i - 1` if
any, and otherwise defaults to the current layout with the bottom-of-pipe
stage. -/
def barriersForImage (b : VulkanBackend) (i : Nat) (img : Nat)
    (states : List (Nat × StatePair)) : Except String (List RecInstr) :=
  match b.images.get_obj img with
  | .error e => .error e
  | .ok imgVk =>
    match mapFind? i states with
    | none => .ok []
    | some curr =>
      let prev : StatePair :=
        if i > 0 then
          match mapFind? (i - 1) states with
          | some p => p
          | none => (curr.1, .BOTTOM_OF_PIPE)
        else (curr.1, .BOTTOM_OF_PIPE)
      .ok [.cmdPipelineBarrier img prev.2 curr.2 prev.1 curr.1
            (infer_access_from_layout prev.1) (infer_access_from_layout curr.1)
            (get_aspect_mask imgVk.format)]

/-- The barrier loop at index `i`, iterating over the needed-state map.
On a failed image lookup the loop aborts, keeping the barriers already
recorded for earlier map entries. -/
def barriersAt (b : VulkanBackend) (m : NeededMap) (i : Nat) :
    List RecInstr × Option String :=
  match m with
  | [] => ([], none)
  | (img, states) :: rest =>
    match barriersForImage b i img states with
    | .error e => ([], some e)
    | .ok here =>
      match barriersAt b rest i with
      | (there, err) => (here ++ there, err)

/-- The recording pass (lines 901-955): for each enumerated command, first
the native recording call, then the barrier loop.  The accumulator is the
trace of instructions recorded into the native command buffer so far; on a
failed lookup the pass stops, returning the partial trace together with the
error. -/
def recordLoop (b : VulkanBackend) (m : NeededMap) :
    List (Nat × GPUCommands) → List RecInstr → List RecInstr × Option String
  | [], acc => (acc, none)
  | (i, cmd) :: rest, acc =>
    match recordNative b cmd with
    | .error e => (acc, some e)
    | .ok native =>
      match barriersAt b m i with
      | (bars, some e) => (acc ++ native ++ bars, some e)
      | (bars, none) => recordLoop b m rest (acc ++ native ++ bars)

/-- Append the `end_command_buffer` step to a recording-pass result:
only a pass that finished without error is ended. -/
def finishRecording (p : List RecInstr × Option String) :
    List RecInstr × Option String :=
  match p with
  | (tr, some e) => (tr, some e)
  | (tr, none) => (tr ++ [RecInstr.endCB], none)

/-- The part of `compile_commands` after the derivation pass: resolve the
command buffer, then `begin_command_buffer`, the recording pass and, when
it succeeds, `end_command_buffer`. -/
def compileAfterDerive (b : VulkanBackend) (command_buffer : CommandBufferID)
    (commands : List GPUCommands) (m : NeededMap) : List RecInstr × Option String :=
  match b.command_buffers.get_obj command_buffer with
  | .error e => ([], some e)
  | .ok _ => finishRecording (recordLoop b m commands.enum [RecInstr.beginCB])

/-- Embedding of `compile_commands` (lines 839-962).  The result is the
trace of instructions recorded into the native command buffer paired with
the error, if any: derivation-pass and command-buffer-lookup failures
happen before `begin_command_buffer`, so they leave the trace empty;
recording-pass failures leave the trace begun and never ended.  The native
`begin_command_buffer` / `end_command_buffer` driver results are modelled
as succeeding. -/
def compile_commands (b : VulkanBackend) (command_buffer : CommandBufferID)
    (commands : List GPUCommands) : List RecInstr × Option String :=
  match deriveNeeded b commands.enum [] with
  | .error e => ([], some e)
  | .ok m => compileAfterDerive b command_buffer commands m

/-- The (old layout, new layout) pairs of the barriers affecting image
`img` in a recorded trace, in recording order. -/
def barriersAffecting (img : Nat) (tr : List RecInstr) :
    List (VkImageLayout × VkImageLayout) :=
  tr.filterMap fun ins =>
    match ins with
    | .cmdPipelineBarrier i _ _ old new _ _ _ =>
        if i = img then some (old, new) else none
    | _ => none

/-- True of the barrier instructions. -/
def isBarrier : RecInstr → Bool
  | .cmdPipelineBarrier _ _ _ _ _ _ _ _ => true
  | _ => false

/-- True of the buffer-copy instructions. -/
def isCopy : RecInstr → Bool
  | .cmdCopyBuffer _ _ _ => true
  | _ => false

/-- Look every id of a list up in a store, failing on the first miss (the
`collect::<Result<Vec<_>, _>>()?` idiom of the source). -/
def lookupAll {T : Type} (s : SequentialIDStore T) : List Nat → Except String (List T)
  | [] => .ok []
  | id :: rest =>
    match s.get_obj id with
    | .error e => .error e
    | .ok v =>
      match lookupAll s rest with
      | .error e => .error e
      | .ok vs => .ok (v :: vs)

/-- One native `vk::WriteDescriptorSet` issued by `update_input_set`,
recorded as the binding index plus the ids whose buffer / view infos were
written. -/
inductive DescWrite where
  | bufferArrayWrite (dstBinding : Nat) (buffers : List BufferID)
  | textureArrayWrite (dstBinding : Nat) (textures : List ImageID)
deriving DecidableEq

/-- Embedding of `update_input_set` (lines 749-794): resolve the input set,
then every buffer, then every texture; issue one whole-array descriptor
write for the buffer set at binding 0 and one for the texture set at
binding 0 (`update_descriptor_sets` is a native call, modelled as the
returned write trace).  The function takes `&mut self` but writes no field
of any resource table: the returned backend is the input backend, in
particular the `bound_buffers` / `bound_textures` lists of the resolved
`InputSetVK` are left as they were. -/
def update_input_set (b : VulkanBackend) (input_set : InputSetID)
    (buffers : List BufferID) (textures : List ImageID) :
    Except String (VulkanBackend × List DescWrite) :=
  match b.descriptor_sets.get_obj input_set with
  | .error e => .error e
  | .ok _bds =>
    match lookupAll b.buffers buffers with
    | .error e => .error e
    | .ok _bufferInfos =>
      match lookupAll b.images textures with
      | .error e => .error e
      | .ok _imageInfos =>
        .ok (b, [.bufferArrayWrite 0 buffers, .textureArrayWrite 0 textures])

/-- Result of a native `vkWaitForFences` call on a single fence, or the
absence of one: the sentinel timeout `u64::MAX` on a never-signaled fence
means the call never returns. -/
inductive VkWaitResult where
  | success
  | timeout
  | blocksForever
deriving DecidableEq

/-- Modelled Vulkan semantics of `vkWaitForFences` over one fence:
`SUCCESS` once the fence is signaled; with a finite timeout on a
never-signaled fence, `TIMEOUT` when the timeout elapses; the sentinel
timeout `u64::MAX` waits indefinitely, so on a never-signaled fence the
call never returns.  `signaled` says whether the GPU ever signals the
fence. -/
def vkWaitForFences (signaled : Bool) (timeout_ns : Nat) : VkWaitResult :=
  if signaled then .success
  else if timeout_ns = u64Max then .blocksForever
  else .timeout

/-- The timeout `wait_for_fence` passes to `wait_for_fences`
(vulkan-rhi-backend/src/lib.rs, line 817): `u64::MAX`. -/
def wait_for_fence_timeout_ns : Nat := u64Max

/-- Decidable equality for `Except`, which the standard library does not
derive. -/
instance {E A : Type} [DecidableEq E] [DecidableEq A] : DecidableEq (Except E A) :=
  fun a b =>
    match a, b with
    | .ok x, .ok y =>
        if h : x = y then .isTrue (by rw [h]) else .isFalse (by simp [h])
    | .ok _, .error _ => .isFalse (by simp)
    | .error _, .ok _ => .isFalse (by simp)
    | .error e, .error f =>
        if h : e = f then .isTrue (by rw [h]) else .isFalse (by simp [h])

/-- What a call to `wait_for_fence` does: either it returns a Rust
`Result`, or it never returns. -/
inductive WaitOutcome where
  | returns (r : Except String Unit)
  | blocksForever
deriving DecidableEq

/-- Embedding of `wait_for_fence` (lines 812-820): resolve the fence (a
miss returns the store's not-found error), then `wait_for_fences` with
`wait_all = true` and timeout `u64::MAX`.  A native `TIMEOUT` result would
be mapped to an error string, but with the `u64::MAX` timeout it cannot
occur; on a never-signaled fence the call never returns.  The method takes
`&self`, so no backend state can be mutated: the embedding returns no
backend. -/
def wait_for_fence (b : VulkanBackend) (signaled : FenceID → Bool)
    (fence_id : FenceID) : WaitOutcome :=
  match b.fences.get_obj fence_id with
  | .error e => .returns (.error e)
  | .ok _ =>
    match vkWaitForFences (signaled fence_id) wait_for_fence_timeout_ns with
    | .success => .returns (.ok ())
    | .timeout => .returns (.error "at wait_for_fence: timeout")
    | .blocksForever => .blocksForever

/-- How a Rust call can end: with an `Ok` value, with an `Err` value, or by
panicking (an uncatchable fault, not a result value). -/
inductive RustOutcome (A : Type) where
  | ok (a : A)
  | err (e : String)
  | panicked (msg : String)
deriving DecidableEq

/-- True of the outcomes that are explicit result values. -/
def RustOutcome.isExplicitResult {A : Type} : RustOutcome A → Bool
  | .ok _ => true
  | .err _ => true
  | .panicked _ => false

/-- The attachment-id list `create_frame_buffer` collects: the color
attachments followed by the optional depth attachment (`attachment_ids` in
the source). -/
def attachmentIds (color_attachments : List ImageID)
    (depth_attachment : Option ImageID) : List ImageID :=
  color_attachments ++ (match depth_attachment with | some d => [d] | none => [])

/-- The tail of `create_frame_buffer` once the resolution source image is
in hand: build the native framebuffer at that image's resolution (native
creation modelled as succeeding) and store the `FramebufferVK`. -/
def create_frame_buffer_store (b : VulkanBackend)
    (color_attachments : List ImageID) (depth_attachment : Option ImageID)
    (img0 : AllocatedTexture) : RustOutcome (FramebufferID × VulkanBackend) :=
  match b.frame_buffers.add_obj
      { framebuffer := { width := img0.resolution.width
                         height := img0.resolution.height }
        color_attachments := color_attachments
        depth_attachment := depth_attachment } with
  | .error e => .err e
  | .ok (fb_id, fbs) => .ok (fb_id, { b with frame_buffers := fbs })

/-- The resolution lookup of `create_frame_buffer`:
`self.images.get_obj(color_attachments[0].0)?.resolution`, once the index
`color_attachments[0]` has produced `c0`. -/
def create_frame_buffer_res (b : VulkanBackend)
    (color_attachments : List ImageID) (depth_attachment : Option ImageID)
    (c0 : ImageID) : RustOutcome (FramebufferID × VulkanBackend) :=
  match b.images.get_obj c0 with
  | .error e => .err e
  | .ok img0 => create_frame_buffer_store b color_attachments depth_attachment img0

/-- Embedding of `create_frame_buffer` (lines 689-718): resolve the
pipeline, collect the attachment views (colors, then the optional depth),
then read the resolution from `color_attachments[0]` — a Rust `Vec` index
that panics when the color list is empty — build the native framebuffer at
that resolution and store the `FramebufferVK`.  No attachment other than
the first color image contributes to the resolution and none is validated
against it. -/
def create_frame_buffer (b : VulkanBackend) (pipeline_id : PipelineID)
    (color_attachments : List ImageID) (depth_attachment : Option ImageID) :
    RustOutcome (FramebufferID × VulkanBackend) :=
  match b.pipelines.get_obj pipeline_id with
  | .error e => .err e
  | .ok _g =>
    match lookupAll b.images (attachmentIds color_attachments depth_attachment) with
    | .error e => .err e
    | .ok _views =>
      match color_attachments with
      | [] => .panicked "index out of bounds: the len is 0 but the index is 0"
      | c0 :: _ =>
        create_frame_buffer_res b color_attachments depth_attachment c0

/-- One native destruction step performed while dropping the backend. -/
inductive DestroyAction where
  | destroyImage (id : ImageID)
  | destroyBuffer (id : BufferID)
  | destroyPipeline (id : PipelineID)
  | destroyFramebuffer (id : FramebufferID)
  | destroyInputSet (id : InputSetID)
  | destroyFence (id : FenceID)
  | destroyCommandBuffer (id : CommandBufferID)
  | destroySurface
  | destroyDevice
  | destroyInstance
deriving DecidableEq

/-- Embedding of `impl Drop for VulkanBackend` (lines 1015-1031): destroy
every live image (via `destroy_image`, whose `Result` is ignored), then
every live buffer (likewise), then the surface, the device and the
instance.  `get_all` belongs to the newer seq-id-store revision the
backend is built against; modelled from the spec as returning the handle
table, whose keys are the live handles. -/
def dropVulkanBackend (b : VulkanBackend) : List DestroyAction :=
  (keys b.images.store).map DestroyAction.destroyImage ++
  (keys b.buffers.store).map DestroyAction.destroyBuffer ++
  [DestroyAction.destroySurface, DestroyAction.destroyDevice, DestroyAction.destroyInstance]

/-- An empty resource table. -/
def emptyStore (T : Type) : SequentialIDStore T := { max_id := 0, store := [], freed := [] }

/-- Concrete backend for the barrier example: two live 16x16 texture
images (X = 0, Y = 1), two live 64-byte buffers (0, 1) and one live
command buffer (0). -/
def exBackendC1 : VulkanBackend :=
  { command_buffers := { max_id := 1, store := [(0, ())], freed := [] }
    fences := emptyStore Unit
    descriptor_sets := emptyStore InputSetVK
    frame_buffers := emptyStore FramebufferVK
    pipelines := emptyStore GraphicsPipeline
    images := { max_id := 2
                store := [(0, ⟨⟨16, 16⟩, .Texture⟩), (1, ⟨⟨16, 16⟩, .Texture⟩)]
                freed := [] }
    buffers := { max_id := 2, store := [(0, ⟨64⟩), (1, ⟨64⟩)], freed := [] } }

/-- The spec's barrier example: image X (= 0) is touched at indices 2, 5
and 9 with required states transfer-dst (A), transfer-src (B) and
transfer-dst (A); every other index is a buffer-to-buffer copy touching no
image. -/
def exCommandsC1 : List GPUCommands :=
  [ .CopyBufferToBuffer 0 1, .CopyBufferToBuffer 0 1,
    .CopyBufferToImage 0 0,
    .CopyBufferToBuffer 0 1, .CopyBufferToBuffer 0 1,
    .BlitImage 0 1,
    .CopyBufferToBuffer 0 1, .CopyBufferToBuffer 0 1, .CopyBufferToBuffer 0 1,
    .CopyBufferToImage 0 0 ]

/-- Concrete backend for the input-set example: one live input set (0)
with nothing bound yet, and one live 16x16 texture image (1). -/
def exBackendC2 : VulkanBackend :=
  { command_buffers := emptyStore Unit
    fences := emptyStore Unit
    descriptor_sets := { max_id := 1, store := [(0, ⟨[], []⟩)], freed := [] }
    frame_buffers := emptyStore FramebufferVK
    pipelines := emptyStore GraphicsPipeline
    images := { max_id := 2, store := [(1, ⟨⟨16, 16⟩, .Texture⟩)], freed := [0] }
    buffers := emptyStore AllocatedBuffer }

/-- Concrete backend for the compilation-failure example: one live command
buffer (0), one live 64-byte buffer (0) and one live image (0); buffer 99
does not exist. -/
def exBackendC4 : VulkanBackend :=
  { command_buffers := { max_id := 1, store := [(0, ())], freed := [] }
    fences := emptyStore Unit
    descriptor_sets := emptyStore InputSetVK
    frame_buffers := emptyStore FramebufferVK
    pipelines := emptyStore GraphicsPipeline
    images := { max_id := 1, store := [(0, ⟨⟨16, 16⟩, .Texture⟩)], freed := [] }
    buffers := { max_id := 1, store := [(0, ⟨64⟩)], freed := [] } }

/-- Concrete backend for the fence example: one live fence (0). -/
def exBackendC5 : VulkanBackend :=
  { command_buffers := emptyStore Unit
    fences := { max_id := 1, store := [(0, ())], freed := [] }
    descriptor_sets := emptyStore InputSetVK
    frame_buffers := emptyStore FramebufferVK
    pipelines := emptyStore GraphicsPipeline
    images := emptyStore AllocatedTexture
    buffers := emptyStore AllocatedBuffer }

/-- Concrete backend for the teardown example: one live image, one live
buffer, one live fence and one live pipeline. -/
def exBackendC9 : VulkanBackend :=
  { command_buffers := emptyStore Unit
    fences := { max_id := 1, store := [(0, ())], freed := [] }
    descriptor_sets := emptyStore InputSetVK
    frame_buffers := emptyStore FramebufferVK
    pipelines := { max_id := 1, store := [(0, GraphicsPipeline.mk)], freed := [] }
    images := { max_id := 1, store := [(0, ⟨⟨16, 16⟩, .Texture⟩)], freed := [] }
    buffers := { max_id := 1, store := [(0, ⟨64⟩)], freed := [] } }

/-- Concrete backend for the framebuffer example: one live pipeline (0)
and two live texture images of different resolutions (0 is 4x4, 1 is
8x8). -/
def exBackendC10 : VulkanBackend :=
  { command_buffers := emptyStore Unit
    fences := emptyStore Unit
    descriptor_sets := emptyStore InputSetVK
    frame_buffers := emptyStore FramebufferVK
    pipelines := { max_id := 1, store := [(0, GraphicsPipeline.mk)], freed := [] }
    images := { max_id := 2
                store := [(0, ⟨⟨4, 4⟩, .Texture⟩), (1, ⟨⟨8, 8⟩, .Texture⟩)]
                freed := [] }
    buffers := emptyStore AllocatedBuffer }

/-- `exBackendC10` after `create_frame_buffer exBackendC10 0 [0, 1] none`:
framebuffer 0 is live, at the 4x4 resolution of the first color image,
although the second color image is 8x8. -/
def exBackendC10After : VulkanBackend :=
  { exBackendC10 with
    frame_buffers := { max_id := 1
                       store := [(0, ⟨⟨4, 4⟩, [0, 1], none⟩)]
                       freed := [] } }


/-!
Helper lemmas about the map model.
-/

theorem mapFind?_mapInsert_self {T : Type} (k : Nat) (v : T) (m : List (Nat × T)) :
    mapFind? k (mapInsert k v m) = some v := by
  induction m with
  | nil => simp [mapInsert, mapFind?]
  | cons p rest ih =>
    rcases eq_or_ne p.1 k with h | h
    · rw [mapInsert, if_pos h, mapFind?, if_pos rfl]
    · rw [mapInsert, if_neg h, mapFind?, if_neg h]
      exact ih

theorem mem_keys_mapInsert {T : Type} (x k : Nat) (v : T) (m : List (Nat × T)) :
    x ∈ keys (mapInsert k v m) ↔ x ∈ keys m ∨ x = k := by
  induction m with
  | nil => simp [mapInsert, keys]
  | cons p rest ih =>
    simp only [keys] at ih ⊢
    rcases eq_or_ne p.1 k with h | h
    · rw [mapInsert, if_pos h]
      simp only [List.map_cons, List.mem_cons]
      constructor
      · rintro (rfl | hx)
        · exact Or.inr rfl
        · exact Or.inl (Or.inr hx)
      · rintro ((rfl | hx) | rfl)
        · exact Or.inl h
        · exact Or.inr hx
        · exact Or.inl rfl
    · rw [mapInsert, if_neg h]
      simp only [List.map_cons, List.mem_cons]
      rw [ih]
      tauto

theorem nodup_keys_mapInsert {T : Type} (k : Nat) (v : T) (m : List (Nat × T))
    (h : (keys m).Nodup) : (keys (mapInsert k v m)).Nodup := by
  induction m with
  | nil => simp [mapInsert, keys]
  | cons p rest ih =>
    simp only [keys, List.map_cons, List.nodup_cons] at h ⊢
    rcases eq_or_ne p.1 k with hp | hp
    · rw [mapInsert, if_pos hp]
      simp only [List.map_cons, List.nodup_cons]
      exact ⟨by rw [← hp]; exact h.1, h.2⟩
    · rw [mapInsert, if_neg hp]
      simp only [List.map_cons, List.nodup_cons]
      refine ⟨fun hc => ?_, ih h.2⟩
      rcases (mem_keys_mapInsert p.1 k v rest).mp hc with hx | hx
      · exact h.1 hx
      · exact hp hx

theorem mem_keys_mapRemove {T : Type} (x k : Nat) (m : List (Nat × T)) :
    x ∈ keys (mapRemove k m) ↔ x ∈ keys m ∧ x ≠ k := by
  induction m with
  | nil => simp [mapRemove, keys]
  | cons p rest ih =>
    simp only [keys] at ih ⊢
    rcases eq_or_ne p.1 k with h | h
    · rw [mapRemove, if_pos h, ih]
      simp only [List.map_cons, List.mem_cons]
      constructor
      · rintro ⟨hx, hne⟩
        exact ⟨Or.inr hx, hne⟩
      · rintro ⟨rfl | hx, hne⟩
        · exact absurd h hne
        · exact ⟨hx, hne⟩
    · rw [mapRemove, if_neg h]
      simp only [List.map_cons, List.mem_cons]
      rw [ih]
      constructor
      · rintro (rfl | ⟨hx, hne⟩)
        · exact ⟨Or.inl rfl, h⟩
        · exact ⟨Or.inr hx, hne⟩
      · rintro ⟨rfl | hx, hne⟩
        · exact Or.inl rfl
        · exact Or.inr ⟨hx, hne⟩

theorem nodup_keys_mapRemove {T : Type} (k : Nat) (m : List (Nat × T))
    (h : (keys m).Nodup) : (keys (mapRemove k m)).Nodup := by
  induction m with
  | nil => simp [mapRemove, keys]
  | cons p rest ih =>
    simp only [keys, List.map_cons, List.nodup_cons] at h ⊢
    rcases eq_or_ne p.1 k with hp | hp
    · rw [mapRemove, if_pos hp]
      exact ih h.2
    · rw [mapRemove, if_neg hp]
      simp only [List.map_cons, List.nodup_cons]
      refine ⟨fun hc => ?_, ih h.2⟩
      exact h.1 ((mem_keys_mapRemove p.1 k rest).mp hc).1

theorem mapFind?_eq_none_iff {T : Type} (k : Nat) (m : List (Nat × T)) :
    mapFind? k m = none ↔ k ∉ keys m := by
  induction m with
  | nil => simp [mapFind?, keys]
  | cons p rest ih =>
    simp only [keys] at ih ⊢
    rcases eq_or_ne p.1 k with h | h
    · rw [mapFind?, if_pos h]
      simp only [List.map_cons, List.mem_cons]
      constructor
      · exact fun hc => Option.noConfusion hc
      · exact fun hk => absurd (Or.inl h.symm) hk
    · rw [mapFind?, if_neg h, ih]
      simp only [List.map_cons, List.mem_cons]
      constructor
      · intro hk hc
        rcases hc with rfl | hx
        · exact h rfl
        · exact hk hx
      · intro hk hx
        exact hk (Or.inr hx)

/-!
Helper lemmas about the store operations and the store invariant.
-/

theorem get_obj_error_eq {T : Type} {s : SequentialIDStore T} {id : Nat} {e : String}
    (h : s.get_obj id = .error e) : e = "item not found" := by
  unfold SequentialIDStore.get_obj at h
  rcases hf : mapFind? id s.store with _ | v
  · rw [hf] at h
    injection h with h'
    exact h'.symm
  · rw [hf] at h
    exact Except.noConfusion h

theorem get_obj_eq_ok_iff {T : Type} (s : SequentialIDStore T) (id : Nat) (v : T) :
    s.get_obj id = .ok v ↔ mapFind? id s.store = some v := by
  unfold SequentialIDStore.get_obj
  rcases hf : mapFind? id s.store with _ | w
  · constructor
    · exact fun h => Except.noConfusion h
    · exact fun h => Option.noConfusion h
  · constructor
    · intro h
      injection h with h'
      rw [h']
    · intro h
      injection h with h'
      rw [h']

theorem storeInv_new (T : Type) (c : Nat) : StoreInv (SequentialIDStore.new T c) := by
  refine ⟨?_, ?_, ?_, ?_, ?_⟩ <;> simp [SequentialIDStore.new, keys]

theorem storeInv_add_obj {T : Type} {s s' : SequentialIDStore T} {obj : T} {hid : Nat}
    (inv : StoreInv s) (heq : s.add_obj obj = .ok (hid, s')) : StoreInv s' := by
  unfold SequentialIDStore.add_obj at heq
  rcases hf : s.freed with _ | ⟨id, rest⟩
  · rw [hf] at heq
    by_cases hm : s.max_id = u32Max
    · rw [if_pos hm] at heq
      exact Except.noConfusion heq
    · rw [if_neg hm] at heq
      injection heq with h2
      rw [Prod.mk.injEq] at h2
      obtain ⟨rfl, rfl⟩ := h2
      refine ⟨?_, ?_, ?_, ?_, ?_⟩
      · intro x hx
        rcases (mem_keys_mapInsert x s.max_id obj s.store).mp hx with hx' | rfl
        · exact Nat.lt_succ_of_lt (inv.keys_lt x hx')
        · exact Nat.lt_succ_self _
      · intro x hx
        exact absurd hx (List.not_mem_nil x)
      · exact List.nodup_nil
      · intro x hx
        exact absurd hx (List.not_mem_nil x)
      · exact nodup_keys_mapInsert _ _ _ inv.keys_nodup
  · rw [hf] at heq
    injection heq with h2
    rw [Prod.mk.injEq] at h2
    obtain ⟨rfl, rfl⟩ := h2
    have hidf : id ∈ s.freed := by
      rw [hf]
      exact List.mem_cons_self _ _
    have hid_lt : id < s.max_id := inv.freed_lt id hidf
    have hid_nk : id ∉ keys s.store := inv.freed_disjoint id hidf
    refine ⟨?_, ?_, ?_, ?_, ?_⟩
    · intro x hx
      rcases (mem_keys_mapInsert x id obj s.store).mp hx with hx' | rfl
      · exact inv.keys_lt x hx'
      · exact hid_lt
    · intro x hx
      exact inv.freed_lt x (by rw [hf]; exact List.mem_cons_of_mem _ hx)
    · have hnd := inv.freed_nodup
      rw [hf] at hnd
      exact hnd.of_cons
    · intro x hx
      have hxf : x ∈ s.freed := by
        rw [hf]
        exact List.mem_cons_of_mem _ hx
      have hxne : x ≠ id := by
        intro hcon
        have hnd := inv.freed_nodup
        rw [hf] at hnd
        rw [hcon] at hx
        exact (List.nodup_cons.mp hnd).1 hx
      intro hcon
      rcases (mem_keys_mapInsert x id obj s.store).mp hcon with hx' | hx'
      · exact inv.freed_disjoint x hxf hx'
      · exact hxne hx'
    · exact nodup_keys_mapInsert _ _ _ inv.keys_nodup

theorem storeInv_remove_obj {T : Type} {s s' : SequentialIDStore T} {id : Nat} {t : T}
    (inv : StoreInv s) (heq : s.remove_obj id = .ok (t, s')) : StoreInv s' := by
  unfold SequentialIDStore.remove_obj at heq
  rcases hf : mapFind? id s.store with _ | v
  · rw [hf] at heq
    exact Except.noConfusion heq
  · rw [hf] at heq
    injection heq with h2
    rw [Prod.mk.injEq] at h2
    obtain ⟨rfl, rfl⟩ := h2
    have hid_mem : id ∈ keys s.store := by
      by_contra hc
      rw [← mapFind?_eq_none_iff] at hc
      rw [hc] at hf
      exact Option.noConfusion hf
    have hid_lt : id < s.max_id := inv.keys_lt id hid_mem
    have hid_nf : id ∉ s.freed := fun hc => inv.freed_disjoint id hc hid_mem
    refine ⟨?_, ?_, ?_, ?_, ?_⟩
    · intro x hx
      exact inv.keys_lt x ((mem_keys_mapRemove x id s.store).mp hx).1
    · intro x hx
      rcases List.mem_cons.mp hx with rfl | hx'
      · exact hid_lt
      · exact inv.freed_lt x hx'
    · exact List.nodup_cons.mpr ⟨hid_nf, inv.freed_nodup⟩
    · intro x hx
      rcases List.mem_cons.mp hx with rfl | hx'
      · intro hc
        exact ((mem_keys_mapRemove x x s.store).mp hc).2 rfl
      · intro hc
        exact inv.freed_disjoint x hx' ((mem_keys_mapRemove x id s.store).mp hc).1
    · exact nodup_keys_mapRemove _ _ inv.keys_nodup

theorem storeInv_applyOp {T : Type} {s : SequentialIDStore T} (inv : StoreInv s)
    (op : StoreOp T) : StoreInv (s.applyOp op) := by
  rcases op with obj | id
  · simp only [SequentialIDStore.applyOp]
    rcases heq : s.add_obj obj with e | ⟨hh, s'⟩
    · exact inv
    · exact storeInv_add_obj inv heq
  · simp only [SequentialIDStore.applyOp]
    rcases heq : s.remove_obj id with e | ⟨t, s'⟩
    · exact inv
    · exact storeInv_remove_obj inv heq

theorem storeInv_foldl {T : Type} (ops : List (StoreOp T)) :
    ∀ s : SequentialIDStore T, StoreInv s →
      StoreInv (ops.foldl SequentialIDStore.applyOp s) := by
  induction ops with
  | nil => exact fun s inv => inv
  | cons op rest ih =>
    intro s inv
    exact ih _ (storeInv_applyOp inv op)

theorem storeInv_execOps {T : Type} (ops : List (StoreOp T)) : StoreInv (execOps ops) :=
  storeInv_foldl ops _ (storeInv_new T 0)

theorem add_obj_fresh {T : Type} {s s' : SequentialIDStore T} {obj : T} {hid : Nat}
    (inv : StoreInv s) (heq : s.add_obj obj = .ok (hid, s')) : hid ∉ keys s.store := by
  unfold SequentialIDStore.add_obj at heq
  rcases hf : s.freed with _ | ⟨id, rest⟩
  · rw [hf] at heq
    by_cases hm : s.max_id = u32Max
    · rw [if_pos hm] at heq
      exact Except.noConfusion heq
    · rw [if_neg hm] at heq
      injection heq with h2
      rw [Prod.mk.injEq] at h2
      obtain ⟨rfl, rfl⟩ := h2
      intro hc
      exact Nat.lt_irrefl _ (inv.keys_lt _ hc)
  · rw [hf] at heq
    injection heq with h2
    rw [Prod.mk.injEq] at h2
    obtain ⟨rfl, rfl⟩ := h2
    exact inv.freed_disjoint id (by rw [hf]; exact List.mem_cons_self _ _)

theorem add_obj_error_iff {T : Type} (s : SequentialIDStore T) (obj : T) :
    s.add_obj obj = .error "max items reached" ↔ s.freed = [] ∧ s.max_id = u32Max := by
  constructor
  · intro h
    rcases hf : s.freed with _ | ⟨id, rest⟩
    · refine ⟨rfl, ?_⟩
      by_contra hm
      unfold SequentialIDStore.add_obj at h
      rw [hf, if_neg hm] at h
      exact Except.noConfusion h
    · unfold SequentialIDStore.add_obj at h
      rw [hf] at h
      exact Except.noConfusion h
  · rintro ⟨hf, hm⟩
    unfold SequentialIDStore.add_obj
    rw [hf, if_pos hm]

theorem foldl_adds_max_id {T : Type} (obj : T) :
    ∀ (n : Nat) (s : SequentialIDStore T), s.freed = [] → s.max_id + n ≤ u32Max →
      ((List.replicate n (StoreOp.add obj)).foldl SequentialIDStore.applyOp s).max_id
          = s.max_id + n ∧
      ((List.replicate n (StoreOp.add obj)).foldl SequentialIDStore.applyOp s).freed
          = [] := by
  intro n
  induction n with
  | zero =>
    intro s hf hm
    rw [List.replicate_zero, List.foldl_nil]
    exact ⟨(Nat.add_zero _).symm, hf⟩
  | succ k ih =>
    intro s hf hm
    rw [List.replicate_succ, List.foldl_cons]
    have hmne : s.max_id ≠ u32Max := by omega
    have hstep : s.applyOp (StoreOp.add obj) =
        { s with max_id := s.max_id + 1, store := mapInsert s.max_id obj s.store } := by
      simp only [SequentialIDStore.applyOp]
      unfold SequentialIDStore.add_obj
      rw [hf, if_neg hmne]
    rw [hstep]
    obtain ⟨h1, h2⟩ := ih
      { s with max_id := s.max_id + 1, store := mapInsert s.max_id obj s.store }
      hf (by show s.max_id + 1 + k ≤ u32Max; omega)
    refine ⟨?_, h2⟩
    rw [h1]
    show s.max_id + 1 + k = s.max_id + (k + 1)
    omega

/-- Claim C6: for every sequence of `add_obj` / `remove_obj` calls on a
`SequentialIDStore`, at no point do two simultaneously-live handles compare
equal: the live handle table is duplicate-free in every reachable state,
and `add_obj` never returns a handle equal to a currently-live one. -/
theorem seq_id_store_handle_uniqueness (T : Type) (ops : List (StoreOp T)) :
    (keys (execOps ops).store).Nodup ∧
    ∀ obj hid s', (execOps ops).add_obj obj = .ok (hid, s') →
      hid ∉ keys (execOps ops).store := by
  have inv := storeInv_execOps ops
  exact ⟨inv.keys_nodup, fun obj hid s' heq => add_obj_fresh inv heq⟩

/-- Witness for `seq_id_store_handle_uniqueness` at the call sequence
`[add 7]` followed by `add_obj 8`, which returns the fresh handle 1. -/
theorem seq_id_store_handle_uniqueness_witness :
    (keys (execOps [StoreOp.add (7 : Nat)]).store).Nodup ∧
    (1 : Nat) ∉ keys (execOps [StoreOp.add (7 : Nat)]).store :=
  ⟨(seq_id_store_handle_uniqueness Nat [StoreOp.add 7]).1,
   (seq_id_store_handle_uniqueness Nat [StoreOp.add 7]).2 8 1
     ⟨2, [(0, 7), (1, 8)], []⟩ (by decide)⟩

/-- Claim C7: whenever at least one handle has been freed and not yet
reissued, the next `add_obj` reuses a previously freed handle rather than
minting a new one; in particular, after a successful `remove_obj H`, the
next `add_obj` returns a handle drawn from the freed list. -/
theorem seq_id_store_freed_reuse (T : Type) (s : SequentialIDStore T) (obj : T) :
    (s.freed ≠ [] → ∃ hid s', s.add_obj obj = .ok (hid, s') ∧ hid ∈ s.freed) ∧
    (∀ H t s', s.remove_obj H = .ok (t, s') →
      ∃ hid s'', s'.add_obj obj = .ok (hid, s'') ∧ hid ∈ s'.freed) := by
  constructor
  · intro hne
    rcases hf : s.freed with _ | ⟨id, rest⟩
    · exact absurd hf hne
    · refine ⟨id, { s with store := mapInsert id obj s.store, freed := rest }, ?_, ?_⟩
      · unfold SequentialIDStore.add_obj
        rw [hf]
      · exact List.mem_cons_self _ _
  · intro H t s' heq
    unfold SequentialIDStore.remove_obj at heq
    rcases hf : mapFind? H s.store with _ | v
    · rw [hf] at heq
      exact Except.noConfusion heq
    · rw [hf] at heq
      injection heq with h2
      rw [Prod.mk.injEq] at h2
      obtain ⟨rfl, rfl⟩ := h2
      exact ⟨H, ⟨s.max_id, mapInsert H obj (mapRemove H s.store), s.freed⟩, rfl,
        List.mem_cons_self _ _⟩

/-- Witness for `seq_id_store_freed_reuse`: a store whose freed list holds
handle 2 reuses a freed handle on the next `add_obj`. -/
theorem seq_id_store_freed_reuse_witness :
    ∃ hid s', (SequentialIDStore.mk 3 [(0, (42 : Nat))] [2]).add_obj 9 = .ok (hid, s') ∧
      hid ∈ (SequentialIDStore.mk 3 [(0, (42 : Nat))] [2]).freed :=
  (seq_id_store_freed_reuse Nat ⟨3, [(0, 42)], [2]⟩ 9).1 (by decide)

/-- Claim C8: `add_obj` fails with the exhaustion error exactly when the
high-water-mark counter has saturated `u32::MAX` and no freed handle is
available; the exhaustion error is distinguishable from the not-found
error; and after issuing `u32::MAX` handles from a fresh store without
removing any, the next `add_obj` returns the exhaustion error. -/
theorem seq_id_store_exhaustion (T : Type) (obj : T) :
    (∀ s : SequentialIDStore T,
      s.add_obj obj = .error "max items reached" ↔
        s.freed = [] ∧ s.max_id = u32Max) ∧
    "max items reached" ≠ "item not found" ∧
    (execOps (List.replicate u32Max (StoreOp.add obj))).add_obj obj =
      .error "max items reached" := by
  refine ⟨fun s => add_obj_error_iff s obj, by decide, ?_⟩
  obtain ⟨h1, h2⟩ := foldl_adds_max_id obj u32Max (SequentialIDStore.new T 0) rfl
    (by show 0 + u32Max ≤ u32Max; omega)
  apply (add_obj_error_iff _ obj).mpr
  refine ⟨h2, ?_⟩
  unfold execOps
  rw [h1]
  show 0 + u32Max = u32Max
  omega

/-- Witness for `seq_id_store_exhaustion`: a store with a saturated counter
and no freed handles rejects the next `add_obj` with the exhaustion
error. -/
theorem seq_id_store_exhaustion_witness :
    (SequentialIDStore.mk u32Max ([] : List (Nat × Nat)) []).add_obj 0 =
      .error "max items reached" :=
  ((seq_id_store_exhaustion Nat 0).1 ⟨u32Max, [], []⟩).mpr ⟨rfl, rfl⟩

/-!
Helper lemmas about the recording pass.
-/

theorem barriersForImage_error_eq {b : VulkanBackend} {i img : Nat}
    {states : List (Nat × StatePair)} {e : String}
    (h : barriersForImage b i img states = .error e) : e = "item not found" := by
  unfold barriersForImage at h
  rcases h1 : b.images.get_obj img with e' | imgVk
  · rw [h1] at h
    injection h with h3
    rw [← h3]
    exact get_obj_error_eq h1
  · rw [h1] at h
    rcases h2 : mapFind? i states with _ | curr
    · rw [h2] at h
      exact Except.noConfusion h
    · rw [h2] at h
      exact Except.noConfusion h

theorem barriersForImage_ok_barriers {b : VulkanBackend} {i img : Nat}
    {states : List (Nat × StatePair)} {l : List RecInstr}
    (h : barriersForImage b i img states = .ok l) :
    ∀ ins ∈ l, isBarrier ins = true := by
  unfold barriersForImage at h
  rcases h1 : b.images.get_obj img with e' | imgVk
  · rw [h1] at h
    exact Except.noConfusion h
  · rw [h1] at h
    rcases h2 : mapFind? i states with _ | curr
    · rw [h2] at h
      injection h with h3
      rw [← h3]
      intro ins hins
      exact absurd hins (List.not_mem_nil ins)
    · rw [h2] at h
      injection h with h3
      rw [← h3]
      intro ins hins
      rw [List.mem_singleton] at hins
      subst hins
      rfl

theorem barriersAt_spec (b : VulkanBackend) (i : Nat) :
    ∀ m : NeededMap,
      (∀ ins ∈ (barriersAt b m i).1, isBarrier ins = true) ∧
      (∀ e, (barriersAt b m i).2 = some e → e = "item not found") := by
  intro m
  induction m with
  | nil =>
    constructor
    · intro ins hins
      exact absurd hins (List.not_mem_nil ins)
    · intro e he
      exact Option.noConfusion he
  | cons p rest ih =>
    obtain ⟨img, states⟩ := p
    unfold barriersAt
    rcases h1 : barriersForImage b i img states with e | here
    · constructor
      · intro ins hins
        exact absurd hins (List.not_mem_nil ins)
      · intro e' he'
        injection he' with h3
        rw [← h3]
        exact barriersForImage_error_eq h1
    · rcases h2 : barriersAt b rest i with ⟨there, err⟩
      rw [h2] at ih
      constructor
      · intro ins hins
        rcases List.mem_append.mp hins with hy | hy
        · exact barriersForImage_ok_barriers h1 ins hy
        · exact ih.1 ins hy
      · intro e' he'
        exact ih.2 e' he'

theorem recordNative_error_eq {b : VulkanBackend} {cmd : GPUCommands} {e : String}
    (h : recordNative b cmd = .error e) : e = "item not found" := by
  rcases cmd with ⟨src, dst⟩ | ⟨src, dst⟩ | ⟨src, dst⟩ | ⟨pp, fb, inset, d⟩
  · simp only [recordNative] at h
    rcases h1 : b.buffers.get_obj src with e' | srcB
    · rw [h1] at h
      injection h with h3
      rw [← h3]
      exact get_obj_error_eq h1
    · rw [h1] at h
      rcases h2 : b.buffers.get_obj dst with e' | dstB
      · rw [h2] at h
        injection h with h3
        rw [← h3]
        exact get_obj_error_eq h2
      · rw [h2] at h
        exact Except.noConfusion h
  · exact Except.noConfusion h
  · exact Except.noConfusion h
  · exact Except.noConfusion h

theorem recordNative_ok_copies {b : VulkanBackend} {cmd : GPUCommands}
    {l : List RecInstr} (h : recordNative b cmd = .ok l) :
    ∀ ins ∈ l, isCopy ins = true := by
  rcases cmd with ⟨src, dst⟩ | ⟨src, dst⟩ | ⟨src, dst⟩ | ⟨pp, fb, inset, d⟩
  · simp only [recordNative] at h
    rcases h1 : b.buffers.get_obj src with e' | srcB
    · rw [h1] at h
      exact Except.noConfusion h
    · rw [h1] at h
      rcases h2 : b.buffers.get_obj dst with e' | dstB
      · rw [h2] at h
        exact Except.noConfusion h
      · rw [h2] at h
        injection h with h3
        rw [← h3]
        intro ins hins
        rw [List.mem_singleton] at hins
        subst hins
        rfl
  · injection h with h3
    rw [← h3]
    intro ins hins
    exact absurd hins (List.not_mem_nil ins)
  · injection h with h3
    rw [← h3]
    intro ins hins
    exact absurd hins (List.not_mem_nil ins)
  · injection h with h3
    rw [← h3]
    intro ins hins
    exact absurd hins (List.not_mem_nil ins)

theorem recordLoop_spec (b : VulkanBackend) (m : NeededMap) :
    ∀ (l : List (Nat × GPUCommands)) (acc : List RecInstr),
      (∃ suf, (recordLoop b m l acc).1 = acc ++ suf ∧
        ∀ ins ∈ suf, isCopy ins = true ∨ isBarrier ins = true) ∧
      (∀ e, (recordLoop b m l acc).2 = some e → e = "item not found") := by
  intro l
  induction l with
  | nil =>
    intro acc
    refine ⟨⟨[], (List.append_nil acc).symm, ?_⟩, ?_⟩
    · intro ins hins
      exact absurd hins (List.not_mem_nil ins)
    · intro e he
      exact Option.noConfusion he
  | cons p rest ih =>
    obtain ⟨i, cmd⟩ := p
    intro acc
    unfold recordLoop
    rcases h1 : recordNative b cmd with e | native
    · refine ⟨⟨[], (List.append_nil acc).symm, ?_⟩, ?_⟩
      · intro ins hins
        exact absurd hins (List.not_mem_nil ins)
      · intro e' he'
        injection he' with h3
        rw [← h3]
        exact recordNative_error_eq h1
    · rcases h2 : barriersAt b m i with ⟨bars, obars⟩
      have hbars := barriersAt_spec b i m
      rw [h2] at hbars
      rcases obars with _ | e2
      · obtain ⟨⟨suf, hsuf, hsufP⟩, herr⟩ := ih (acc ++ native ++ bars)
        refine ⟨⟨native ++ bars ++ suf, ?_, ?_⟩, ?_⟩
        · rw [hsuf]
          simp [List.append_assoc]
        · intro ins hins
          rcases List.mem_append.mp hins with hx | hx
          · rcases List.mem_append.mp hx with hy | hy
            · exact Or.inl (recordNative_ok_copies h1 ins hy)
            · exact Or.inr (hbars.1 ins hy)
          · exact hsufP ins hx
        · exact herr
      · refine ⟨⟨native ++ bars, ?_, ?_⟩, ?_⟩
        · simp [List.append_assoc]
        · intro ins hins
          rcases List.mem_append.mp hins with hy | hy
          · exact Or.inl (recordNative_ok_copies h1 ins hy)
          · exact Or.inr (hbars.1 ins hy)
        · intro e' he'
          injection he' with h3
          rw [← h3]
          exact hbars.2 e2 rfl

theorem deriveNeeded_error_eq (b : VulkanBackend) :
    ∀ (l : List (Nat × GPUCommands)) (m : NeededMap) (e : String),
      deriveNeeded b l m = .error e → e = "item not found" := by
  intro l
  induction l with
  | nil =>
    intro m e h
    exact Except.noConfusion h
  | cons p rest ih =>
    obtain ⟨i, cmd⟩ := p
    intro m e h
    rcases cmd with ⟨src, dst⟩ | ⟨src, dst⟩ | ⟨src, dst⟩ | ⟨pp, fb, inset, d⟩
    · simp only [deriveNeeded] at h
      exact ih _ e h
    · simp only [deriveNeeded] at h
      exact ih _ e h
    · simp only [deriveNeeded] at h
      exact ih _ e h
    · simp only [deriveNeeded] at h
      rcases h1 : b.frame_buffers.get_obj fb with e1 | fbVk
      · rw [h1] at h
        injection h with h3
        rw [← h3]
        exact get_obj_error_eq h1
      · rw [h1] at h
        rcases h2 : b.descriptor_sets.get_obj inset with e2 | isVk
        · rw [h2] at h
          injection h with h3
          rw [← h3]
          exact get_obj_error_eq h2
        · rw [h2] at h
          exact ih _ e h

/-- Claim C1 (refuted; code bug): on the spec's own example --- image X
(= 0) touched at indices 2, 5 and 9 with required states transfer-dst (A),
transfer-src (B), transfer-dst (A) --- compilation succeeds and emits
exactly three barriers affecting X, but each barrier transitions from the
current state to itself (A to A, B to B, A to A): the recording pass
consults only index i - 1 and, when the image has no entry there, defaults
the old state to the current layout with the bottom-of-pipe stage.  No
barrier transitions from the undefined layout, although the claim requires
undefined to A for the first mention and A to B, B to A for the later
ones. -/
theorem compile_commands_barrier_transitions_bug :
    (compile_commands exBackendC1 0 exCommandsC1).2 = none ∧
    barriersAffecting 0 (compile_commands exBackendC1 0 exCommandsC1).1 =
      [(.TRANSFER_DST_OPTIMAL, .TRANSFER_DST_OPTIMAL),
       (.TRANSFER_SRC_OPTIMAL, .TRANSFER_SRC_OPTIMAL),
       (.TRANSFER_DST_OPTIMAL, .TRANSFER_DST_OPTIMAL)] ∧
    (VkImageLayout.UNDEFINED, VkImageLayout.TRANSFER_DST_OPTIMAL) ∉
      barriersAffecting 0 (compile_commands exBackendC1 0 exCommandsC1).1 := by
  decide

/-- Claim C2 (refuted; code bug): a successful `update_input_set` call
resolves every handle and issues the two whole-array descriptor writes,
but it leaves the backend --- and hence the `bound_buffers` /
`bound_textures` lists the input-set resource is supposed to record for
later layout inference --- completely unchanged: after binding texture 1,
the resource still records an empty bound-texture list. -/
theorem update_input_set_forgets_bound_handles :
    update_input_set exBackendC2 0 [] [1] =
      .ok (exBackendC2, [.bufferArrayWrite 0 [], .textureArrayWrite 0 [1]]) ∧
    (exBackendC2.descriptor_sets.get_obj 0).map InputSetVK.bound_textures =
      .ok [] := by
  decide

/-- Claim C3: the recording pass of `compile_commands` emits a native
recording call only for `CopyBufferToBuffer` commands; a
`CopyBufferToImage` or `BlitImage` command records no native copy or blit
instruction, and everything else emitted at a command index is a layout
transition barrier. -/
theorem recording_pass_native_only_buffer_copies (b : VulkanBackend)
    (cmd : GPUCommands) :
    (∀ src dst, cmd = .CopyBufferToImage src dst → recordNative b cmd = .ok []) ∧
    (∀ src dst, cmd = .BlitImage src dst → recordNative b cmd = .ok []) ∧
    (∀ instrs, recordNative b cmd = .ok instrs → instrs ≠ [] →
      ∃ src dst size, cmd = .CopyBufferToBuffer src dst ∧
        instrs = [.cmdCopyBuffer src dst size]) ∧
    (∀ m i, ∀ ins ∈ (barriersAt b m i).1, isBarrier ins = true) := by
  refine ⟨?_, ?_, ?_, ?_⟩
  · rintro src dst rfl
    rfl
  · rintro src dst rfl
    rfl
  · intro instrs heq hne
    rcases cmd with ⟨src, dst⟩ | ⟨src, dst⟩ | ⟨src, dst⟩ | ⟨pp, fb, inset, d⟩
    · simp only [recordNative] at heq
      rcases h1 : b.buffers.get_obj src with e | srcB
      · rw [h1] at heq
        exact Except.noConfusion heq
      · rw [h1] at heq
        rcases h2 : b.buffers.get_obj dst with e | dstB
        · rw [h2] at heq
          exact Except.noConfusion heq
        · rw [h2] at heq
          injection heq with h3
          exact ⟨src, dst, srcB.size, rfl, h3.symm⟩
    · simp only [recordNative] at heq
      injection heq with h3
      exact absurd h3.symm hne
    · simp only [recordNative] at heq
      injection heq with h3
      exact absurd h3.symm hne
    · simp only [recordNative] at heq
      injection heq with h3
      exact absurd h3.symm hne
  · intro m i
    exact (barriersAt_spec b i m).1

/-- Witness for `recording_pass_native_only_buffer_copies`: a concrete
buffer-to-image copy records no native instruction. -/
theorem recording_pass_native_only_buffer_copies_witness :
    recordNative exBackendC4 (.CopyBufferToImage 0 0) = .ok [] :=
  (recording_pass_native_only_buffer_copies exBackendC4
    (.CopyBufferToImage 0 0)).1 0 0 rfl

/-- Claim C4 counterexample (refuted as stated): compiling
`[CopyBufferToBuffer 99 0]`, whose source buffer 99 does not resolve,
aborts with the not-found error but leaves the command buffer begun and
never ended (the native trace is `[beginCB]`); and compiling
`[CopyBufferToImage 99 0]`, whose source buffer 99 also does not resolve,
does not abort at all, because the compiler never resolves the source
buffer of a buffer-to-image copy. -/
theorem compile_commands_abort_counterexample :
    ((compile_commands exBackendC4 0 [.CopyBufferToBuffer 99 0]).2 =
        some "item not found" ∧
      (compile_commands exBackendC4 0 [.CopyBufferToBuffer 99 0]).1 =
        [RecInstr.beginCB] ∧
      RecInstr.endCB ∉ (compile_commands exBackendC4 0 [.CopyBufferToBuffer 99 0]).1) ∧
    (compile_commands exBackendC4 0 [.CopyBufferToImage 99 0]).2 = none := by
  decide

theorem finishRecording_spec (p : List RecInstr × Option String) (e : String)
    (h : (finishRecording p).2 = some e) :
    p.2 = some e ∧ (finishRecording p).1 = p.1 := by
  rcases p with ⟨tr, otr⟩
  rcases otr with _ | e2
  · exact Option.noConfusion (show (none : Option String) = some e from h)
  · exact ⟨h, rfl⟩

theorem compileAfterDerive_spec (b : VulkanBackend) (cb : CommandBufferID)
    (cmds : List GPUCommands) (m : NeededMap) (e : String)
    (h : (compileAfterDerive b cb cmds m).2 = some e) :
    e = "item not found" ∧
    ((compileAfterDerive b cb cmds m).1 = [] ∨
      ((compileAfterDerive b cb cmds m).1.head? = some RecInstr.beginCB ∧
        RecInstr.endCB ∉ (compileAfterDerive b cb cmds m).1)) := by
  unfold compileAfterDerive at h ⊢
  rcases h2 : b.command_buffers.get_obj cb with e2 | u
  · rw [h2] at h
    have hcast : some e2 = some e := h
    injection hcast with h3
    rw [← h3]
    exact ⟨get_obj_error_eq h2, Or.inl rfl⟩
  · rw [h2] at h
    have hcast : (finishRecording (recordLoop b m cmds.enum [RecInstr.beginCB])).2 =
        some e := h
    obtain ⟨hp2, hp1⟩ := finishRecording_spec _ e hcast
    obtain ⟨⟨suf, hsuf, hsufP⟩, herr⟩ := recordLoop_spec b m cmds.enum [RecInstr.beginCB]
    refine ⟨herr e hp2, Or.inr ⟨?_, ?_⟩⟩
    · show (finishRecording (recordLoop b m cmds.enum [RecInstr.beginCB])).1.head? =
        some RecInstr.beginCB
      rw [hp1, hsuf]
      rfl
    · show RecInstr.endCB ∉
        (finishRecording (recordLoop b m cmds.enum [RecInstr.beginCB])).1
      rw [hp1, hsuf]
      intro hc
      rcases List.mem_cons.mp hc with hx | hx
      · exact RecInstr.noConfusion hx
      · rcases hsufP _ hx with hy | hy
        · exact Bool.noConfusion hy
        · exact Bool.noConfusion hy

/-- Claim C4 (amended): every error `compile_commands` returns is the
store's not-found error, and on failure the command buffer is either
untouched (failures in the derivation pass or the command-buffer lookup,
which happen before `begin_command_buffer`) or left begun and never ended
(failures during the recording pass); a handle the compiler never resolves
(such as the source buffer of a buffer-to-image copy) does not abort
compilation. -/
theorem compile_commands_failure_contract (b : VulkanBackend)
    (cb : CommandBufferID) (cmds : List GPUCommands) (e : String)
    (h : (compile_commands b cb cmds).2 = some e) :
    e = "item not found" ∧
    ((compile_commands b cb cmds).1 = [] ∨
      ((compile_commands b cb cmds).1.head? = some RecInstr.beginCB ∧
        RecInstr.endCB ∉ (compile_commands b cb cmds).1)) := by
  unfold compile_commands at h ⊢
  rcases h1 : deriveNeeded b cmds.enum [] with e1 | m
  · rw [h1] at h
    have hcast : some e1 = some e := h
    injection hcast with h3
    rw [← h3]
    exact ⟨deriveNeeded_error_eq b cmds.enum [] e1 h1, Or.inl rfl⟩
  · rw [h1] at h
    have hcast : (compileAfterDerive b cb cmds m).2 = some e := h
    obtain ⟨he, hrest⟩ := compileAfterDerive_spec b cb cmds m e hcast
    refine ⟨he, ?_⟩
    rcases hrest with h5 | ⟨h5, h6⟩
    · exact Or.inl h5
    · exact Or.inr ⟨h5, h6⟩

/-- Witness for `compile_commands_failure_contract`: the concrete failing
compilation of a buffer-to-buffer copy from the nonexistent buffer 99. -/
theorem compile_commands_failure_contract_witness :
    "item not found" = "item not found" ∧
    ((compile_commands exBackendC4 0 [.CopyBufferToBuffer 99 0]).1 = [] ∨
      ((compile_commands exBackendC4 0 [.CopyBufferToBuffer 99 0]).1.head? =
          some RecInstr.beginCB ∧
        RecInstr.endCB ∉
          (compile_commands exBackendC4 0 [.CopyBufferToBuffer 99 0]).1)) :=
  compile_commands_failure_contract exBackendC4 0 [.CopyBufferToBuffer 99 0]
    "item not found" (by decide)

/-- Claim C5 counterexample (refuted as stated): waiting on the live but
never-signaled fence 0 does not return a Timeout error --- it never
returns at all, because `wait_for_fence` passes the `u64::MAX` sentinel,
which makes the native wait indefinite; there is no short or fixed finite
timeout anywhere in the call. -/
theorem wait_for_fence_counterexample :
    wait_for_fence exBackendC5 (fun _ => false) 0 = .blocksForever ∧
    wait_for_fence exBackendC5 (fun _ => false) 0 ≠
      .returns (.error "at wait_for_fence: timeout") ∧
    wait_for_fence exBackendC5 (fun _ => false) 0 ≠ .returns (.ok ()) ∧
    wait_for_fence_timeout_ns = u64Max := by
  decide

/-- Claim C5 (amended): `wait_for_fence` passes the infinite-timeout
sentinel `u64::MAX` to the native wait; a stale fence handle returns the
not-found error, a signaled fence returns success, and a never-signaled
fence blocks indefinitely instead of returning a Timeout error.  The
method takes the backend immutably (the embedding returns no backend), so
no backend state is mutated, and there is no retry. -/
theorem wait_for_fence_amended (b : VulkanBackend) (signaled : FenceID → Bool)
    (fid : FenceID) :
    wait_for_fence_timeout_ns = u64Max ∧
    (∀ e, b.fences.get_obj fid = .error e →
      wait_for_fence b signaled fid = .returns (.error "item not found")) ∧
    (∀ u, b.fences.get_obj fid = .ok u → signaled fid = true →
      wait_for_fence b signaled fid = .returns (.ok ())) ∧
    (∀ u, b.fences.get_obj fid = .ok u → signaled fid = false →
      wait_for_fence b signaled fid = .blocksForever) := by
  refine ⟨rfl, ?_, ?_, ?_⟩
  · intro e he
    unfold wait_for_fence
    rw [he]
    rw [get_obj_error_eq he]
  · intro u hu hs
    unfold wait_for_fence
    rw [hu]
    unfold vkWaitForFences wait_for_fence_timeout_ns
    rw [hs]
    rfl
  · intro u hu hs
    unfold wait_for_fence
    rw [hu]
    unfold vkWaitForFences wait_for_fence_timeout_ns
    rw [hs]
    rfl

/-- Witness for `wait_for_fence_amended`: the live, never-signaled fence 0
makes the wait block forever. -/
theorem wait_for_fence_amended_witness :
    wait_for_fence exBackendC5 (fun _ => false) 0 = .blocksForever :=
  (wait_for_fence_amended exBackendC5 (fun _ => false) 0).2.2.2 () (by decide) rfl

/-- Claim C9 counterexample (refuted as stated): dropping a backend that
still holds a live fence 0 and a live pipeline 0 destroys neither of them
(nor any framebuffer, input set or command buffer) while still tearing
down the device --- only images and buffers are destroyed per-resource. -/
theorem drop_backend_counterexample :
    keys exBackendC9.fences.store = [0] ∧
    keys exBackendC9.pipelines.store = [0] ∧
    DestroyAction.destroyFence 0 ∉ dropVulkanBackend exBackendC9 ∧
    DestroyAction.destroyPipeline 0 ∉ dropVulkanBackend exBackendC9 ∧
    DestroyAction.destroyDevice ∈ dropVulkanBackend exBackendC9 := by
  decide

/-- Claim C9 (amended): dropping the backend destroys every remaining live
image and every remaining live buffer (each per-resource destroy's result
is ignored, so one failure cannot abort the teardown of the rest) before
destroying the surface, the device and, last, the instance; pipelines,
framebuffers, input sets, fences and command buffers are never destroyed
per-resource. -/
theorem drop_backend_amended (b : VulkanBackend) :
    (∀ id, id ∈ keys b.images.store →
      DestroyAction.destroyImage id ∈ dropVulkanBackend b) ∧
    (∀ id, id ∈ keys b.buffers.store →
      DestroyAction.destroyBuffer id ∈ dropVulkanBackend b) ∧
    (∀ id, DestroyAction.destroyPipeline id ∉ dropVulkanBackend b) ∧
    (∀ id, DestroyAction.destroyFramebuffer id ∉ dropVulkanBackend b) ∧
    (∀ id, DestroyAction.destroyInputSet id ∉ dropVulkanBackend b) ∧
    (∀ id, DestroyAction.destroyFence id ∉ dropVulkanBackend b) ∧
    (∀ id, DestroyAction.destroyCommandBuffer id ∉ dropVulkanBackend b) ∧
    DestroyAction.destroyDevice ∈ dropVulkanBackend b ∧
    (dropVulkanBackend b).getLast? = some DestroyAction.destroyInstance := by
  unfold dropVulkanBackend
  refine ⟨?_, ?_, ?_, ?_, ?_, ?_, ?_, ?_, ?_⟩
  · intro id hid
    simp only [List.mem_append, List.mem_map]
    exact Or.inl (Or.inl ⟨id, hid, rfl⟩)
  · intro id hid
    simp only [List.mem_append, List.mem_map]
    exact Or.inl (Or.inr ⟨id, hid, rfl⟩)
  · intro id
    simp
  · intro id
    simp
  · intro id
    simp
  · intro id
    simp
  · intro id
    simp
  · simp
  · rw [List.getLast?_append]
    rfl

/-- Witness for `drop_backend_amended`: image 0 of the teardown example is
destroyed. -/
theorem drop_backend_amended_witness :
    DestroyAction.destroyImage 0 ∈ dropVulkanBackend exBackendC9 :=
  (drop_backend_amended exBackendC9).1 0 (by decide)

theorem get_obj_eq_ok_of_find {T : Type} {s : SequentialIDStore T} {id : Nat} {v : T}
    (h : mapFind? id s.store = some v) : s.get_obj id = .ok v := by
  unfold SequentialIDStore.get_obj
  rw [h]

theorem get_obj_after_add {T : Type} {s s' : SequentialIDStore T} {obj : T} {id : Nat}
    (heq : s.add_obj obj = .ok (id, s')) : s'.get_obj id = .ok obj := by
  unfold SequentialIDStore.add_obj at heq
  rcases hf : s.freed with _ | ⟨fid, rest⟩
  · rw [hf] at heq
    by_cases hm : s.max_id = u32Max
    · rw [if_pos hm] at heq
      exact Except.noConfusion heq
    · rw [if_neg hm] at heq
      injection heq with h2
      rw [Prod.mk.injEq] at h2
      obtain ⟨rfl, rfl⟩ := h2
      apply get_obj_eq_ok_of_find
      show mapFind? s.max_id (mapInsert s.max_id obj s.store) = some obj
      exact mapFind?_mapInsert_self _ _ _
  · rw [hf] at heq
    injection heq with h2
    rw [Prod.mk.injEq] at h2
    obtain ⟨rfl, rfl⟩ := h2
    apply get_obj_eq_ok_of_find
    show mapFind? fid (mapInsert fid obj s.store) = some obj
    exact mapFind?_mapInsert_self _ _ _

/-- Claim C10 counterexample (refuted as stated): calling
`create_frame_buffer` with an empty color-attachment list (and a live
pipeline 0) does not return a FramebufferID or an Error --- the Rust `Vec`
index `color_attachments[0]` panics, an uncatchable fault. -/
theorem create_frame_buffer_empty_colors_panics :
    create_frame_buffer exBackendC10 0 [] none =
      .panicked "index out of bounds: the len is 0 but the index is 0" ∧
    (create_frame_buffer exBackendC10 0 [] none).isExplicitResult = false := by
  decide

/-- Claim C10 (amended): for every input with at least one color image,
`create_frame_buffer` returns an explicit result --- a FramebufferID or an
Error, never a panic --- and on success the stored framebuffer takes its
resolution from the first color image, records the attachment lists
unchanged, and validates no other attachment against that resolution; with
an empty color-image list the call panics on the `color_attachments[0]`
index instead of returning a result. -/
theorem create_frame_buffer_store_spec (b : VulkanBackend)
    (ca : List ImageID) (d : Option ImageID) (img0 : AllocatedTexture) :
    (create_frame_buffer_store b ca d img0).isExplicitResult = true ∧
    ∀ fid b', create_frame_buffer_store b ca d img0 = .ok (fid, b') →
      ∃ fbVk, b'.frame_buffers.get_obj fid = .ok fbVk ∧
        fbVk.framebuffer = ⟨img0.resolution.width, img0.resolution.height⟩ ∧
        fbVk.color_attachments = ca ∧ fbVk.depth_attachment = d := by
  unfold create_frame_buffer_store
  rcases h4 : b.frame_buffers.add_obj
      { framebuffer := { width := img0.resolution.width
                         height := img0.resolution.height }
        color_attachments := ca
        depth_attachment := d } with e4 | ⟨fb_id, fbs⟩
  · refine ⟨rfl, ?_⟩
    intro fid b' hok
    have hok' : RustOutcome.err e4 = RustOutcome.ok (fid, b') := hok
    exact RustOutcome.noConfusion hok'
  · refine ⟨rfl, ?_⟩
    intro fid b' hok
    have hok' : RustOutcome.ok (fb_id, { b with frame_buffers := fbs }) =
        RustOutcome.ok (fid, b') := hok
    injection hok' with h5
    rw [Prod.mk.injEq] at h5
    obtain ⟨rfl, rfl⟩ := h5
    exact ⟨{ framebuffer := { width := img0.resolution.width
                              height := img0.resolution.height }
             color_attachments := ca
             depth_attachment := d },
      get_obj_after_add h4, rfl, rfl, rfl⟩

theorem create_frame_buffer_res_spec (b : VulkanBackend)
    (ca : List ImageID) (d : Option ImageID) (c0 : ImageID) :
    (create_frame_buffer_res b ca d c0).isExplicitResult = true ∧
    ∀ fid b', create_frame_buffer_res b ca d c0 = .ok (fid, b') →
      ∃ img0 fbVk, b.images.get_obj c0 = .ok img0 ∧
        b'.frame_buffers.get_obj fid = .ok fbVk ∧
        fbVk.framebuffer = ⟨img0.resolution.width, img0.resolution.height⟩ ∧
        fbVk.color_attachments = ca ∧ fbVk.depth_attachment = d := by
  unfold create_frame_buffer_res
  rcases h3 : b.images.get_obj c0 with e3 | img0
  · refine ⟨rfl, ?_⟩
    intro fid b' hok
    have hok' : RustOutcome.err e3 = RustOutcome.ok (fid, b') := hok
    exact RustOutcome.noConfusion hok'
  · obtain ⟨hexp, hok⟩ := create_frame_buffer_store_spec b ca d img0
    refine ⟨hexp, ?_⟩
    intro fid b' h
    have h' : create_frame_buffer_store b ca d img0 = .ok (fid, b') := h
    obtain ⟨fbVk, hget, hres, hca, hd⟩ := hok fid b' h'
    exact ⟨img0, fbVk, rfl, hget, hres, hca, hd⟩

/-- Claim C10 (amended): for every input with at least one color image,
`create_frame_buffer` returns an explicit result --- a FramebufferID or an
Error, never a panic --- and on success the stored framebuffer takes its
resolution from the first color image, records the attachment lists
unchanged, and validates no other attachment against that resolution; with
an empty color-image list the call panics on the `color_attachments[0]`
index instead of returning a result. -/
theorem create_frame_buffer_amended (b : VulkanBackend) (pid : PipelineID)
    (c0 : ImageID) (rest : List ImageID) (depth : Option ImageID) :
    (create_frame_buffer b pid (c0 :: rest) depth).isExplicitResult = true ∧
    ∀ fid b', create_frame_buffer b pid (c0 :: rest) depth = .ok (fid, b') →
      ∃ img0 fbVk, b.images.get_obj c0 = .ok img0 ∧
        b'.frame_buffers.get_obj fid = .ok fbVk ∧
        fbVk.framebuffer = ⟨img0.resolution.width, img0.resolution.height⟩ ∧
        fbVk.color_attachments = c0 :: rest ∧
        fbVk.depth_attachment = depth := by
  unfold create_frame_buffer
  rcases h1 : b.pipelines.get_obj pid with e1 | g
  · refine ⟨rfl, ?_⟩
    intro fid b' hok
    have hok' : RustOutcome.err e1 = RustOutcome.ok (fid, b') := hok
    exact RustOutcome.noConfusion hok'
  · rcases h2 : lookupAll b.images (attachmentIds (c0 :: rest) depth) with e2 | views
    · refine ⟨rfl, ?_⟩
      intro fid b' hok
      have hok' : RustOutcome.err e2 = RustOutcome.ok (fid, b') := hok
      exact RustOutcome.noConfusion hok'
    · obtain ⟨hexp, hok⟩ := create_frame_buffer_res_spec b (c0 :: rest) depth c0
      exact ⟨hexp, fun fid b' h => hok fid b' h⟩

/-- Witness for `create_frame_buffer_amended`: creating a framebuffer over
the 4x4 image 0 and the 8x8 image 1 succeeds and stores the 4x4 resolution
of the first color image, unvalidated against the second. -/
theorem create_frame_buffer_amended_witness :
    ∃ img0 fbVk, exBackendC10.images.get_obj 0 = .ok img0 ∧
      exBackendC10After.frame_buffers.get_obj 0 = .ok fbVk ∧
      fbVk.framebuffer = ⟨img0.resolution.width, img0.resolution.height⟩ ∧
      fbVk.color_attachments = [0, 1] ∧
      fbVk.depth_attachment = none :=
  (create_frame_buffer_amended exBackendC10 0 0 [1] none).2 0 exBackendC10After
    (by decide)
